import Mathlib

/-!
Shallow embedding of the wyvern library (a Discord bot client library) for
verification of its specification.

The embedding covers the four supplied source files:

- wyvern/extensions/tasks.py  : the periodic task scheduler (Task, task builder)
- wyvern/components/modals.py : the TextInput component and its wire payload
- wyvern/clients.py           : GatewayClient.start, CommandsClient registries,
                                set_prefix
- wyvern/utils.py             : create_timestamp

Python-side state is threaded explicitly; Python exceptions are modelled by an
explicit error type; fallible operations return Except or pair an Option error
with the post-state.
-/

set_option linter.unusedVariables false

deriving instance DecidableEq for Except

namespace Wyvern

/-- Exceptions observable in the supplied source. `unauthorized` models
`wyvern.exceptions.Unauthorized`; `commandAlreadyExists` models
`wyvern.exceptions.CommandAlreadyExists`; `taskAlreadyRunning` models the bare
`Exception("The task is already running.")` in `Task.run`; `valueError` models
the `ValueError` in the `task` builder; `nameError` models a `NameError` from
evaluating an undefined global name; `unboundLocal` models an
`UnboundLocalError` from reading a local variable that was never assigned;
`other` stands for any further exception, tagged to keep instances distinct. -/
inductive PyExc where
  | unauthorized
  | commandAlreadyExists
  | taskAlreadyRunning
  | valueError
  | nameError
  | unboundLocal
  | other (code : Nat)
deriving DecidableEq, Repr

/-! ## Task scheduler (wyvern/extensions/tasks.py) -/

/-- Embeds the `Task` attrs class: the trigger callback (abstracted to an
identifier, since only identity matters here), the delay in seconds (a Python
float, embedded as a rational), the `wait_until_complete` flag (attrs default
`True`) and the `is_running` flag (attrs default `False`). -/
structure Task where
  trigger : Nat
  delay : Rat
  wait_until_complete : Bool := true
  is_running : Bool := false
deriving DecidableEq, Repr

/-- Embeds `Task.run` (tasks.py lines 37-44) as a state transformer: if
`self.is_running is False` it sets the flag and falls through to schedule the
runner (returning no error); otherwise it raises
`Exception("The task is already running.")`, leaving the state untouched
(the raise occurs before any mutation). The scheduling of the background
runner itself is embedded separately by `Task.runSchedulesRunnerWith` and the
`TaskRunner` step machine below. -/
def Task.run (t : Task) : Option PyExc × Task :=
  if t.is_running = false then (Option.none, { t with is_running := true })
  else (some PyExc.taskAlreadyRunning, t)

/-- Embeds `Task.stop` (tasks.py lines 46-48): it only clears the flag. -/
def Task.stop (t : Task) : Task :=
  { t with is_running := false }

/-- A Python runtime value passed to a task callback (only enough structure to
distinguish values from keyword names: numbers and strings). -/
inductive PyVal where
  | vnat (n : Nat)
  | vstr (s : String)
deriving DecidableEq, Repr

/-- Embeds line 44 of tasks.py, `loop.create_task(self._runner(*args, *kwargs))`:
the second star is a SINGLE star applied to the `kwargs` dict, which in Python
unpacks the dict as an iterable, i.e. its KEYS in insertion order, appending
them to the positional arguments; no keyword arguments are passed at all.
The result is the (positional, keyword) argument pair the runner coroutine
receives. -/
def Task.runSchedulesRunnerWith (args : List PyVal) (kwargs : List (String × PyVal)) :
    List PyVal × List (String × PyVal) :=
  (args ++ kwargs.map (fun p => PyVal.vstr p.1), [])

/-- Embeds line 32/34 of tasks.py: each loop iteration invokes
`self.trigger(*args, **kwargs)` with exactly the positional and keyword
arguments `_runner` itself received. -/
def Task.runnerInvokesTriggerWith (pos : List PyVal) (kw : List (String × PyVal)) :
    List PyVal × List (String × PyVal) :=
  (pos, kw)

namespace TaskRunner

/-- Position of the `_runner` coroutine (tasks.py lines 28-35) inside its loop.
`check` is the `while self.is_running is True` test at the top of the loop;
`fire` is the invocation of `self.trigger` (awaited in wait-mode, spawned with
`loop.create_task` otherwise); `sleep` is the `await asyncio.sleep(self.delay)`;
`exited` is reached when the while-test fails. -/
inductive Phase where
  | check
  | fire
  | sleep
  | exited
deriving DecidableEq, Repr

/-- State of the runner coroutine: the shared `is_running` flag, the current
position in the loop body, and how many invocations of the trigger have been
fired so far. -/
structure RState where
  is_running : Bool
  phase : Phase
  fires : Nat
deriving DecidableEq, Repr

/-- One atomic step of the runner loop, as written in tasks.py lines 30-35:
the flag is consulted only at the top of the loop; an iteration fires the
trigger and then sleeps; completing the sleep returns to the top of the loop.
The loop order in the source is check, then fire, then sleep. -/
def step (s : RState) : RState :=
  match s.phase with
  | Phase.check => if s.is_running then { s with phase := Phase.fire } else { s with phase := Phase.exited }
  | Phase.fire => { s with phase := Phase.sleep, fires := s.fires + 1 }
  | Phase.sleep => { s with phase := Phase.check }
  | Phase.exited => s

/-- The effect of `Task.stop` on the runner: it clears the shared flag (and
does nothing else); it can be applied between any two runner steps, in
particular while the runner is suspended inside the sleep. -/
def stopSignal (s : RState) : RState :=
  { s with is_running := false }

end TaskRunner

/-- Python float truthiness of an optional delay argument, as used by the
`if s:` / `elif m:` / `elif h:` chain in the task builder: `None` and `0` are
falsy, every other float is truthy. -/
def pyTruthy (x : Option Rat) : Bool :=
  match x with
  | Option.none => false
  | some q => decide (q ≠ 0)

/-- Embeds tasks.py line 65: the number of delay arguments that are not None,
`len([item for item in [s, m, h] if item is not None])`. -/
def suppliedDelays (s m h : Option Rat) : Nat :=
  (([s, m, h]).filterMap id).length

/-- Embeds tasks.py lines 67-72: the value the local variable `delay` holds
after the `if s: / elif m: / elif h:` chain, or `Option.none` when every branch
guard is falsy and `delay` is never assigned. -/
def resolveDelay (s m h : Option Rat) : Option Rat :=
  if pyTruthy s then s
  else if pyTruthy m then m.map (fun q => q * 60)
  else if pyTruthy h then h.map (fun q => q * 60 * 60)
  else Option.none

/-- Embeds the `task` builder (tasks.py lines 51-80), applied to a trigger
callback (abstracted to an identifier): it raises `ValueError` when the count
of non-None delay arguments is more than one or zero; otherwise it runs the
truthiness chain and constructs the `Task`. Reading `delay` at the `Task(...)`
call when no branch of the chain assigned it (every supplied argument falsy)
raises `UnboundLocalError`. -/
def task (s m h : Option Rat) (wait_until_complete : Bool) (trigger : Nat) :
    Except PyExc Task :=
  if suppliedDelays s m h > 1 ∨ suppliedDelays s m h = 0 then Except.error PyExc.valueError
  else
    match resolveDelay s m h with
    | some d =>
        Except.ok { trigger := trigger, delay := d, wait_until_complete := wait_until_complete, is_running := false }
    | Option.none => Except.error PyExc.unboundLocal

/-! ## Command registries and set_prefix (wyvern/clients.py, CommandsClient) -/

/-- A slash command as far as the registry is concerned: uniquely keyed by
name, carrying its description. -/
structure SlashCommand where
  name : String
  description : String
deriving DecidableEq, Repr

/-- A slash command group, keyed by name. -/
structure SlashGroup where
  name : String
deriving DecidableEq, Repr

/-- A Python dict with string keys, embedded as an insertion-ordered
association list (new keys are appended at the end). -/
def Dict (α : Type) : Type := List (String × α)

/-- The key view of a dict, `d.keys()`. -/
def dictKeys {α : Type} (d : List (String × α)) : List String :=
  d.map Prod.fst

/-- Dict item lookup `d[k]`; keys are unique by construction here, so the
first match is the binding. -/
def dictLookup {α : Type} : List (String × α) → String → Option α
  | [], _ => Option.none
  | (k, v) :: rest, key => if k = key then some v else dictLookup rest key

/-- Embeds `CommandsClient.add_slash_command` (clients.py lines 222-226): if
`command.name` is already among the registry keys it raises
`CommandAlreadyExists` (before any mutation); otherwise it assigns
`self.slash_commands[name] = command`, which appends a fresh key at the end of
the dict. Returns the raised error (if any) together with the registry after
the call. -/
def add_slash_command (reg : List (String × SlashCommand)) (command : SlashCommand) :
    Option PyExc × List (String × SlashCommand) :=
  if command.name ∈ dictKeys reg then (some PyExc.commandAlreadyExists, reg)
  else (Option.none, reg ++ [(command.name, command)])

/-- Embeds `CommandsClient.add_slash_group` (clients.py lines 228-232), with
the same shape as `add_slash_command` on the `slash_groups` registry. -/
def add_slash_group (reg : List (String × SlashGroup)) (group : SlashGroup) :
    Option PyExc × List (String × SlashGroup) :=
  if group.name ∈ dictKeys reg then (some PyExc.commandAlreadyExists, reg)
  else (Option.none, reg ++ [(group.name, group)])

/-- The argument given to `set_prefix` (clients.py lines 257-276): a string, a
list, tuple or set of strings, or a callable (abstracted to an identifier). -/
inductive PrefixArg where
  | ofString (s : String)
  | ofList (xs : List String)
  | ofTuple (xs : List String)
  | ofSet (xs : List String)
  | ofCallable (f : Nat)
deriving DecidableEq, Repr

/-- The Python class object recorded in `self.prefix_type` by `set_prefix`:
`str` for a string argument, or the concrete collection class
(`type(prefix_or_function)`) for a list, tuple or set argument. -/
inductive PyType where
  | tStr
  | tList
  | tTuple
  | tSet
deriving DecidableEq, Repr

/-- The `CommandsClient` state that `set_prefix` touches: an instance identity
(so that returning the same client instance is expressible) and the recorded
`prefix_type`, absent until `set_prefix` first records one. -/
structure CommandsClientState where
  instanceId : Nat
  prefix_type : Option PyType := Option.none
deriving DecidableEq, Repr

/-- Embeds `CommandsClient.set_prefix` (clients.py lines 257-276). A string
argument records `str`; a list, tuple or set argument records its concrete
class via `type(prefix_or_function)`. For ANY other argument (in particular a
callable) control reaches the final branch
`elif isinstance(prefix_or_function, function):`, and evaluating the bare name
`function` — which is defined nowhere in the module and is not a Python
builtin — raises `NameError` before anything is recorded and before the
`return self` line is reached. -/
def set_prefix (st : CommandsClientState) (arg : PrefixArg) :
    Except PyExc CommandsClientState :=
  match arg with
  | PrefixArg.ofString _ => Except.ok { st with prefix_type := some PyType.tStr }
  | PrefixArg.ofList _ => Except.ok { st with prefix_type := some PyType.tList }
  | PrefixArg.ofTuple _ => Except.ok { st with prefix_type := some PyType.tTuple }
  | PrefixArg.ofSet _ => Except.ok { st with prefix_type := some PyType.tSet }
  | PrefixArg.ofCallable _ => Except.error PyExc.nameError

/-! ## GatewayClient.start (wyvern/clients.py lines 163-192) -/

/-- Outcomes of the externally supplied steps of the startup sequence: whether
`await self.gateway._get_socket_ready()` raises, the result of
`await self.rest.fetch_client_user()` (the bot user id on success), and
whether `await self.gateway.listen_gateway()` raises once entered. These
transports are outside the supplied source; only which exception, if any, each
step raises is relevant to the control flow of `start`. -/
structure StartEnv where
  socketFailure : Option PyExc
  fetchClientUser : Except PyExc Nat
  listenFailure : Option PyExc
deriving DecidableEq, Repr

/-- The client state that `GatewayClient.start` reads and writes: the resolved
client id (zero until login), whether the REST session has been closed, and
which lifecycle events have been dispatched. -/
structure GatewayClientState where
  client_id : Nat := 0
  sessionClosed : Bool := false
  dispatchedStarting : Bool := false
  dispatchedStarted : Bool := false
deriving DecidableEq, Repr

/-- Embeds `GatewayClient.start` (clients.py lines 163-192): dispatch
`STARTING`; wait for the socket (any exception there propagates, outside the
try block); then, inside `try`, fetch the client user, record its id, dispatch
`STARTED` and enter the listen loop. The sole `except` clause catches
`exceptions.Unauthorized`, closes the REST session
(`await self.rest._session.close()`) and re-raises the same exception; any
other exception propagates unmodified with the session left as it was.
Returns the post-state and the exception that escaped, if any. -/
def GatewayClient.start (env : StartEnv) (st : GatewayClientState) :
    GatewayClientState × Option PyExc :=
  let st₁ := { st with dispatchedStarting := true }
  match env.socketFailure with
  | some e => (st₁, some e)
  | Option.none =>
    match env.fetchClientUser with
    | Except.error e =>
        if e = PyExc.unauthorized then ({ st₁ with sessionClosed := true }, some e)
        else (st₁, some e)
    | Except.ok uid =>
        let st₂ := { st₁ with client_id := uid, dispatchedStarted := true }
        match env.listenFailure with
        | some e =>
            if e = PyExc.unauthorized then ({ st₂ with sessionClosed := true }, some e)
            else (st₂, some e)
        | Option.none => (st₂, Option.none)

/-! ## TextInput component (wyvern/components/modals.py) -/

/-- Embeds the `TextInputStyle` enum (modals.py lines 13-17). -/
inductive TextInputStyle where
  | SHORT
  | PARAGRAPH
deriving DecidableEq, Repr

/-- The integer value of a style member, `int(self.style)`: SHORT is 1,
PARAGRAPH is 2. -/
def TextInputStyle.toInt : TextInputStyle → Int
  | TextInputStyle.SHORT => 1
  | TextInputStyle.PARAGRAPH => 2

/-- Modelled from the spec: `wyvern/components/base.py` (defining `Component`
and `ComponentType`) is absent from the supplied source; the spec describes
the payload field only as "the text-input component type code", a plain
integer. We fix it as the platform wire value 4; no claim depends on the
particular number. -/
def ComponentType.TEXT_INPUT : Int := 4

/-- Embeds the `TextInput` attrs class (modals.py lines 20-41) with its attrs
defaults: style SHORT, no length bounds, required, no default value, no
placeholder, and type `ComponentType.TEXT_INPUT`. -/
structure TextInput where
  custom_id : String
  label : String
  type : Int := ComponentType.TEXT_INPUT
  style : TextInputStyle := TextInputStyle.SHORT
  min_length : Option Int := Option.none
  max_length : Option Int := Option.none
  required : Bool := true
  default_value : Option String := Option.none
  placeholder : Option String := Option.none
deriving DecidableEq, Repr

/-- A JSON-ish value occurring in the text-input wire payload: an integer, a
string, a boolean, or Python `None`. -/
inductive PValue where
  | vint (i : Int)
  | vstr (s : String)
  | vbool (b : Bool)
  | vnone
deriving DecidableEq, Repr

/-- An optional integer as it appears in the payload (`None` or the value). -/
def optIntP (o : Option Int) : PValue :=
  o.elim PValue.vnone PValue.vint

/-- An optional string as it appears in the payload (`None` or the value). -/
def optStrP (o : Option String) : PValue :=
  o.elim PValue.vnone PValue.vstr

/-- Embeds `TextInput.to_payload` (modals.py lines 43-54): the dict literal in
source order, with `int(self.type)` and `int(self.style)` as plain integers
and the default value sent under the wire key `value`. -/
def TextInput.to_payload (t : TextInput) : List (String × PValue) :=
  [ ("type", PValue.vint t.type),
    ("custom_id", PValue.vstr t.custom_id),
    ("label", PValue.vstr t.label),
    ("style", PValue.vint t.style.toInt),
    ("min_length", optIntP t.min_length),
    ("max_length", optIntP t.max_length),
    ("required", PValue.vbool t.required),
    ("value", optStrP t.default_value),
    ("placeholder", optStrP t.placeholder) ]

/-! ## create_timestamp (wyvern/utils.py lines 17-34) -/

/-- The argument of `create_timestamp`: either a datetime, identified by its
epoch second (the value `.timestamp()` yields for it), or a timedelta,
identified by its total seconds. Whole-second resolution is used throughout,
so the `int(...)` truncation in the source is the identity. -/
inductive DtArg where
  | datetime (epochSeconds : Int)
  | timedelta (seconds : Int)
deriving DecidableEq, Repr

/-- Embeds `create_timestamp` (utils.py lines 17-34) against an environment
consisting of the current UTC epoch second (`nowUtc`) and the UTC offset of
the host local timezone in seconds (`utcOffset`). For a datetime argument the
result embeds `int(dt.timestamp())`, i.e. its epoch second. For a timedelta
the source computes `datetime.datetime.utcnow() + dt`: `utcnow()` is a NAIVE
datetime carrying the UTC wall-clock fields of the current instant, and
`.timestamp()` on a naive datetime interprets its fields as LOCAL time, so the
embedded epoch is `nowUtc + seconds - utcOffset`, not `nowUtc + seconds`,
whenever the host timezone is not UTC. The style string is interpolated
without any validation. -/
def create_timestamp (nowUtc utcOffset : Int) (dt : DtArg) (style : String) : String :=
  match dt with
  | DtArg.datetime e => "<t:" ++ toString e ++ ":" ++ style ++ ">"
  | DtArg.timedelta d => "<t:" ++ toString (nowUtc + d - utcOffset) ++ ":" ++ style ++ ">"

/-! ## Helper lemmas about dicts -/

theorem dictKeys_cons {α : Type} (k : String) (v : α) (d : List (String × α)) :
    dictKeys ((k, v) :: d) = k :: dictKeys d :=
  rfl

theorem dictKeys_append {α : Type} (d d' : List (String × α)) :
    dictKeys (d ++ d') = dictKeys d ++ dictKeys d' :=
  List.map_append _ d d'

theorem dictLookup_append_of_not_mem {α : Type} (d d' : List (String × α)) (k : String)
    (hk : k ∉ dictKeys d) : dictLookup (d ++ d') k = dictLookup d' k := by
  induction d with
  | nil => rfl
  | cons p rest ih =>
      obtain ⟨k₀, v₀⟩ := p
      rw [dictKeys_cons] at hk
      have h1 : ¬(k = k₀) := fun hEq => hk (hEq ▸ List.mem_cons_self k₀ (dictKeys rest))
      have h2 : k ∉ dictKeys rest := fun hm => hk (List.mem_cons_of_mem _ hm)
      rw [List.cons_append]
      simp only [dictLookup]
      rw [if_neg (fun hEq => h1 hEq.symm)]
      exact ih h2

/-! ## Claims about the task scheduler -/

/-- Claim C1 (counterexample): a task that is already sleeping when the flag
is cleared does NOT fire its next scheduled invocation. Concretely, stopping a
runner that is suspended mid-sleep with one invocation fired so far first
completes the sleep (one step, back to the loop test) and then exits at that
test, with the fire count still 1: no further invocation occurs between the
stop and the exit. -/
theorem TaskRunner.stop_mid_sleep_fires_again_refuted :
    TaskRunner.step
        (TaskRunner.stopSignal { is_running := true, phase := TaskRunner.Phase.sleep, fires := 1 }) =
      { is_running := false, phase := TaskRunner.Phase.check, fires := 1 } ∧
    TaskRunner.step (TaskRunner.step
        (TaskRunner.stopSignal { is_running := true, phase := TaskRunner.Phase.sleep, fires := 1 })) =
      { is_running := false, phase := TaskRunner.Phase.exited, fires := 1 } := by
  decide

/-- Claim C1 (amended): stop only clears the running flag, and the runner loop
consults the flag only at the top of each iteration, i.e. between a completed
sleep (and, in wait-mode, a completed invocation) and the next invocation.
Hence stop is not preemptive mid-sleep — a runner stopped while sleeping still
completes that sleep — but it then exits at the very next flag test WITHOUT
firing another invocation: the fire count at exit equals the fire count at the
moment stop was called. -/
theorem TaskRunner.stop_mid_sleep_exits_without_fire (k : Nat) (s : TaskRunner.RState) :
    (TaskRunner.stopSignal s).is_running = false ∧
    TaskRunner.step
        (TaskRunner.stopSignal { is_running := true, phase := TaskRunner.Phase.sleep, fires := k }) =
      { is_running := false, phase := TaskRunner.Phase.check, fires := k } ∧
    TaskRunner.step (TaskRunner.step
        (TaskRunner.stopSignal { is_running := true, phase := TaskRunner.Phase.sleep, fires := k })) =
      { is_running := false, phase := TaskRunner.Phase.exited, fires := k } :=
  ⟨rfl, rfl, rfl⟩

/-- Claim C4 (counterexample): calling the task builder with only `s = 0`
supplies exactly one delay argument, yet no Task is produced and the
invalid-configuration `ValueError` is not raised either: the truthiness chain
`if s: / elif m: / elif h:` skips every branch for a zero value, so the local
`delay` is never assigned and reading it at the `Task(...)` call raises
`UnboundLocalError`. -/
theorem task_zero_delay_refuted :
    task (some 0) Option.none Option.none true 0 = Except.error PyExc.unboundLocal ∧
    task (some 0) Option.none Option.none true 0 ≠ Except.error PyExc.valueError := by
  decide

/-- Claim C4 (amended): the builder raises the invalid-configuration
`ValueError` exactly when zero or more than one of the seconds/minutes/hours
arguments is supplied; when exactly one is supplied with a NONZERO value it
produces a Task whose delay is the seconds value, the minutes value times 60,
or the hours value times 3600, carrying the given wait-until-complete flag;
when the single supplied value is zero it raises `UnboundLocalError` instead
of producing a Task. -/
theorem task_builder_amended (s m h : Option Rat) (w : Bool) (trig : Nat) :
    (task s m h w trig = Except.error PyExc.valueError ↔ suppliedDelays s m h ≠ 1) ∧
    (∀ q : Rat, q ≠ 0 → s = some q → m = Option.none → h = Option.none →
      task s m h w trig =
        Except.ok { trigger := trig, delay := q, wait_until_complete := w, is_running := false }) ∧
    (∀ q : Rat, q ≠ 0 → s = Option.none → m = some q → h = Option.none →
      task s m h w trig =
        Except.ok { trigger := trig, delay := q * 60, wait_until_complete := w, is_running := false }) ∧
    (∀ q : Rat, q ≠ 0 → s = Option.none → m = Option.none → h = some q →
      task s m h w trig =
        Except.ok { trigger := trig, delay := q * 60 * 60, wait_until_complete := w, is_running := false }) ∧
    ((s = some 0 ∧ m = Option.none ∧ h = Option.none) ∨
     (s = Option.none ∧ m = some 0 ∧ h = Option.none) ∨
     (s = Option.none ∧ m = Option.none ∧ h = some 0) →
      task s m h w trig = Except.error PyExc.unboundLocal) := by
  refine ⟨?_, ?_, ?_, ?_, ?_⟩
  · rcases s with _ | sv <;> rcases m with _ | mv <;> rcases h with _ | hv <;>
      simp [task, suppliedDelays, resolveDelay, pyTruthy]
    · by_cases hz : hv = 0 <;> simp [hz]
    · by_cases hz : mv = 0 <;> simp [hz]
    · by_cases hz : sv = 0 <;> simp [hz]
  · intro q hq hs hm hh
    subst hs; subst hm; subst hh
    simp [task, suppliedDelays, resolveDelay, pyTruthy, hq]
  · intro q hq hs hm hh
    subst hs; subst hm; subst hh
    simp [task, suppliedDelays, resolveDelay, pyTruthy, hq]
  · intro q hq hs hm hh
    subst hs; subst hm; subst hh
    simp [task, suppliedDelays, resolveDelay, pyTruthy, hq]
  · rintro (⟨hs, hm, hh⟩ | ⟨hs, hm, hh⟩ | ⟨hs, hm, hh⟩) <;>
      (subst hs; subst hm; subst hh; simp [task, suppliedDelays, resolveDelay, pyTruthy])

/-- Claim C4 (witness): supplying only minutes = 2 yields a Task with delay
120 seconds and the given flag. -/
theorem task_builder_amended_witness :
    task Option.none (some 2) Option.none true 7 =
      Except.ok { trigger := 7, delay := 120, wait_until_complete := true, is_running := false } := by
  have hw := (task_builder_amended Option.none (some 2) Option.none true 7).2.2.1 2 (by norm_num) rfl rfl rfl
  norm_num at hw
  exact hw

/-- Claim C8: a Task has exactly the two states given by its running flag;
`run` on an idle task sets the flag (and reports no error), `run` on a task
that is already running raises the double-start error and leaves the state
untouched (it is not restarted), and after `stop` the running flag is false. -/
theorem Task.run_stop_state_machine (t : Task) :
    (t.is_running = false → Task.run t = (Option.none, { t with is_running := true })) ∧
    (t.is_running = true → Task.run t = (some PyExc.taskAlreadyRunning, t)) ∧
    (Task.stop t).is_running = false := by
  refine ⟨?_, ?_, rfl⟩
  · intro hf; simp [Task.run, hf]
  · intro ht; simp [Task.run, ht]

/-- Claim C8 (witness): the state machine exercised on a concrete task. -/
theorem Task.run_stop_state_machine_witness :
    Task.run { trigger := 0, delay := 5, wait_until_complete := true, is_running := false } =
      (Option.none, { trigger := 0, delay := 5, wait_until_complete := true, is_running := true }) ∧
    Task.run { trigger := 0, delay := 5, wait_until_complete := true, is_running := true } =
      (some PyExc.taskAlreadyRunning,
        { trigger := 0, delay := 5, wait_until_complete := true, is_running := true }) ∧
    (Task.stop { trigger := 0, delay := 5, wait_until_complete := true, is_running := true }).is_running
      = false :=
  ⟨(Task.run_stop_state_machine _).1 rfl,
   (Task.run_stop_state_machine _).2.1 rfl,
   (Task.run_stop_state_machine _).2.2⟩

/-- Claim C9: when `Task.run` is given a non-empty kwargs mapping, the
background runner ends up invoking the trigger with the kwargs KEYS appended
as extra positional arguments after the positional arguments, and with no
keyword arguments at all — `run` schedules `self._runner(*args, *kwargs)`
with a single star on the dict, and `_runner` forwards what it received. -/
theorem Task.kwargs_keys_become_positional (args : List PyVal)
    (kwargs : List (String × PyVal)) (hk : kwargs ≠ []) :
    Task.runnerInvokesTriggerWith (Task.runSchedulesRunnerWith args kwargs).1
        (Task.runSchedulesRunnerWith args kwargs).2 =
      (args ++ kwargs.map (fun p => PyVal.vstr p.1), ([] : List (String × PyVal))) :=
  rfl

/-- Claim C9 (witness): `run([1], x=2)` makes the runner call the trigger with
positional arguments `[1, "x"]` and no keyword arguments. -/
theorem Task.kwargs_keys_become_positional_witness :
    Task.runnerInvokesTriggerWith
        (Task.runSchedulesRunnerWith [PyVal.vnat 1] [("x", PyVal.vnat 2)]).1
        (Task.runSchedulesRunnerWith [PyVal.vnat 1] [("x", PyVal.vnat 2)]).2 =
      ([PyVal.vnat 1, PyVal.vstr "x"], ([] : List (String × PyVal))) :=
  Task.kwargs_keys_become_positional [PyVal.vnat 1] [("x", PyVal.vnat 2)] (by decide)

/-! ## Claims about CommandsClient -/

/-- Claim C5 (code bug, evaluated): a string argument records the `str` kind
and returns the client, and a list argument records the `list` kind and
returns the client; but a callable argument raises `NameError` — the branch
`elif isinstance(prefix_or_function, function):` evaluates the bare name
`function`, which is neither defined in the module nor a builtin — so the
callable kind is never recorded and the client is not returned, contradicting
both the claim and the docstring of the method itself. -/
theorem set_prefix_callable_raises_name_error :
    set_prefix { instanceId := 0 } (PrefixArg.ofCallable 0) = Except.error PyExc.nameError ∧
    set_prefix { instanceId := 0 } (PrefixArg.ofString "!") =
      Except.ok { instanceId := 0, prefix_type := some PyType.tStr } ∧
    set_prefix { instanceId := 0 } (PrefixArg.ofList ["!", "?"]) =
      Except.ok { instanceId := 0, prefix_type := some PyType.tList } ∧
    set_prefix { instanceId := 0 } (PrefixArg.ofTuple ["!"]) =
      Except.ok { instanceId := 0, prefix_type := some PyType.tTuple } ∧
    set_prefix { instanceId := 0 } (PrefixArg.ofSet ["!"]) =
      Except.ok { instanceId := 0, prefix_type := some PyType.tSet } :=
  ⟨rfl, rfl, rfl, rfl, rfl⟩

/-- Claim C6: registering a command (or group) whose name is already a key of
the registry raises `CommandAlreadyExists` synchronously; registering two
commands with distinct fresh names succeeds on both calls and both commands
are afterwards retrievable from the registry by name. -/
theorem slash_registration_duplicate_and_distinct
    (reg : List (String × SlashCommand)) (greg : List (String × SlashGroup))
    (c c₁ c₂ : SlashCommand) (g : SlashGroup) :
    (c.name ∈ dictKeys reg → (add_slash_command reg c).1 = some PyExc.commandAlreadyExists) ∧
    (g.name ∈ dictKeys greg → (add_slash_group greg g).1 = some PyExc.commandAlreadyExists) ∧
    (c₁.name ∉ dictKeys reg → c₂.name ∉ dictKeys reg → c₁.name ≠ c₂.name →
      (add_slash_command reg c₁).1 = Option.none ∧
      (add_slash_command (add_slash_command reg c₁).2 c₂).1 = Option.none ∧
      dictLookup (add_slash_command (add_slash_command reg c₁).2 c₂).2 c₁.name = some c₁ ∧
      dictLookup (add_slash_command (add_slash_command reg c₁).2 c₂).2 c₂.name = some c₂) := by
  refine ⟨?_, ?_, ?_⟩
  · intro hmem; simp [add_slash_command, hmem]
  · intro hmem; simp [add_slash_group, hmem]
  · intro h1 h2 hne
    have e1 : add_slash_command reg c₁ = (Option.none, reg ++ [(c₁.name, c₁)]) := by
      simp [add_slash_command, h1]
    have hmem2 : c₂.name ∉ dictKeys (reg ++ [(c₁.name, c₁)]) := by
      rw [dictKeys_append]
      intro hm
      rcases List.mem_append.mp hm with hA | hB
      · exact h2 hA
      · have hEq : c₂.name = c₁.name := by simpa [dictKeys] using hB
        exact hne hEq.symm
    have e2 : add_slash_command (reg ++ [(c₁.name, c₁)]) c₂ =
        (Option.none, reg ++ [(c₁.name, c₁)] ++ [(c₂.name, c₂)]) := by
      simp [add_slash_command, hmem2]
    refine ⟨?_, ?_, ?_, ?_⟩
    · simp [e1]
    · simp [e1, e2]
    · simp only [e1, e2]
      rw [List.append_assoc, dictLookup_append_of_not_mem _ _ _ h1]
      simp [dictLookup]
    · simp only [e1, e2]
      rw [List.append_assoc, dictLookup_append_of_not_mem _ _ _ h2]
      simp [dictLookup, hne]

/-- Claim C6 (witness): a concrete duplicate registration fails for commands
and for groups, and two distinct fresh registrations both succeed and are both
retrievable by name afterwards. -/
theorem slash_registration_duplicate_and_distinct_witness :
    (add_slash_command [("a", { name := "a", description := "1" })]
        { name := "a", description := "2" }).1 = some PyExc.commandAlreadyExists ∧
    (add_slash_group [("g", { name := "g" })] { name := "g" }).1 =
      some PyExc.commandAlreadyExists ∧
    (add_slash_command [("a", { name := "a", description := "1" })]
        { name := "b", description := "3" }).1 = Option.none ∧
    (add_slash_command
        (add_slash_command [("a", { name := "a", description := "1" })]
          { name := "b", description := "3" }).2
        { name := "c", description := "4" }).1 = Option.none ∧
    dictLookup
        (add_slash_command
          (add_slash_command [("a", { name := "a", description := "1" })]
            { name := "b", description := "3" }).2
          { name := "c", description := "4" }).2 "b" = some { name := "b", description := "3" } ∧
    dictLookup
        (add_slash_command
          (add_slash_command [("a", { name := "a", description := "1" })]
            { name := "b", description := "3" }).2
          { name := "c", description := "4" }).2 "c" = some { name := "c", description := "4" } := by
  have T := slash_registration_duplicate_and_distinct
    [("a", { name := "a", description := "1" })] [("g", { name := "g" })]
    { name := "a", description := "2" } { name := "b", description := "3" }
    { name := "c", description := "4" } { name := "g" }
  obtain ⟨d1, d2, d3, d4⟩ := T.2.2 (by decide) (by decide) (by decide)
  exact ⟨T.1 (by decide), T.2.1 (by decide), d1, d2, d3, d4⟩

/-- Claim C10: registration is atomic on failure — whenever
`add_slash_command` (resp. `add_slash_group`) raises, the registry after the
call is exactly the registry before it, because the membership test precedes
the insertion and the raise aborts before any mutation. -/
theorem add_slash_atomic_on_failure
    (reg : List (String × SlashCommand)) (greg : List (String × SlashGroup))
    (c : SlashCommand) (g : SlashGroup) (e₁ e₂ : PyExc) :
    ((add_slash_command reg c).1 = some e₁ → (add_slash_command reg c).2 = reg) ∧
    ((add_slash_group greg g).1 = some e₂ → (add_slash_group greg g).2 = greg) := by
  constructor
  · intro hE
    by_cases hmem : c.name ∈ dictKeys reg
    · simp [add_slash_command, hmem]
    · simp [add_slash_command, hmem] at hE
  · intro hE
    by_cases hmem : g.name ∈ dictKeys greg
    · simp [add_slash_group, hmem]
    · simp [add_slash_group, hmem] at hE

/-- Claim C10 (witness): a concrete failing registration leaves both concrete
registries exactly as they were. -/
theorem add_slash_atomic_on_failure_witness :
    (add_slash_command [("a", { name := "a", description := "1" })]
        { name := "a", description := "2" }).2 = [("a", { name := "a", description := "1" })] ∧
    (add_slash_group [("g", { name := "g" })] { name := "g" }).2 = [("g", { name := "g" })] := by
  have T := add_slash_atomic_on_failure
    [("a", { name := "a", description := "1" })] [("g", { name := "g" })]
    { name := "a", description := "2" } { name := "g" }
    PyExc.commandAlreadyExists PyExc.commandAlreadyExists
  exact ⟨T.1 (by decide), T.2 (by decide)⟩

/-! ## Claim about GatewayClient.start -/

/-- Claim C7: during startup, an authorization failure of the
fetch-client-user step closes the REST session and re-raises that same error;
a failure of the socket-ready step (which precedes the try block) and a
non-authorization failure of the fetch step both propagate unmodified with the
session left unclosed. -/
theorem GatewayClient.start_auth_failure_handling (env : StartEnv) (st : GatewayClientState) :
    (env.socketFailure = Option.none → env.fetchClientUser = Except.error PyExc.unauthorized →
      GatewayClient.start env st =
        ({ st with dispatchedStarting := true, sessionClosed := true }, some PyExc.unauthorized)) ∧
    (∀ e, env.socketFailure = some e →
      GatewayClient.start env st = ({ st with dispatchedStarting := true }, some e)) ∧
    (∀ e, env.socketFailure = Option.none → env.fetchClientUser = Except.error e →
      e ≠ PyExc.unauthorized →
      GatewayClient.start env st = ({ st with dispatchedStarting := true }, some e)) := by
  refine ⟨?_, ?_, ?_⟩
  · intro h1 h2; simp [GatewayClient.start, h1, h2]
  · intro e h1; simp [GatewayClient.start, h1]
  · intro e h1 h2 hne; simp [GatewayClient.start, h1, h2, hne]

/-- Claim C7 (witness): with a concrete environment whose fetch step raises
the authorization error, start closes the session and re-raises it; with one
whose fetch step raises a different error, the error propagates and the
session stays open. -/
theorem GatewayClient.start_auth_failure_handling_witness :
    GatewayClient.start
        { socketFailure := Option.none, fetchClientUser := Except.error PyExc.unauthorized,
          listenFailure := Option.none } { } =
      ({ client_id := 0, sessionClosed := true, dispatchedStarting := true,
          dispatchedStarted := false }, some PyExc.unauthorized) ∧
    GatewayClient.start
        { socketFailure := Option.none, fetchClientUser := Except.error (PyExc.other 3),
          listenFailure := Option.none } { } =
      ({ client_id := 0, sessionClosed := false, dispatchedStarting := true,
          dispatchedStarted := false }, some (PyExc.other 3)) :=
  ⟨(GatewayClient.start_auth_failure_handling _ _).1 rfl rfl,
   (GatewayClient.start_auth_failure_handling _ _).2.2 (PyExc.other 3) rfl rfl (by decide)⟩

/-! ## Claim about TextInput.to_payload -/

/-- Claim C3: for every TextInput the payload has exactly the nine wire keys
in source order; the `type` and `style` entries are plain integers; the
default value is sent under the wire key `value` and there is no
`default_value` key; and a TextInput constructed with only a custom id and a
label serializes with style 1 (short), required true and value None. -/
theorem TextInput.to_payload_exact_keys (t : TextInput) (a b : String) :
    (t.to_payload.map Prod.fst =
      ["type", "custom_id", "label", "style", "min_length", "max_length",
       "required", "value", "placeholder"]) ∧
    dictLookup t.to_payload "type" = some (PValue.vint t.type) ∧
    dictLookup t.to_payload "style" = some (PValue.vint t.style.toInt) ∧
    dictLookup t.to_payload "value" = some (optStrP t.default_value) ∧
    dictLookup t.to_payload "default_value" = Option.none ∧
    dictLookup (TextInput.to_payload { custom_id := a, label := b }) "style" =
      some (PValue.vint 1) ∧
    dictLookup (TextInput.to_payload { custom_id := a, label := b }) "required" =
      some (PValue.vbool true) ∧
    dictLookup (TextInput.to_payload { custom_id := a, label := b }) "value" =
      some PValue.vnone :=
  ⟨rfl, rfl, rfl, rfl, rfl, rfl, rfl, rfl⟩

/-! ## Claim about create_timestamp -/

/-- Claim C2 (code bug, evaluated): for a datetime argument the markup embeds
exactly the epoch second of the datetime with the style passed through
unvalidated, regardless of the host timezone. For a timedelta argument,
however, on a host whose local timezone is UTC+1 (offset 3600 s), at current
UTC epoch 0 and with a 60-second delta, the code embeds epoch -3540 — the
naive `datetime.utcnow()` result is interpreted as local time by
`.timestamp()` — whereas the claim requires the current UTC epoch plus the
delta, 60. -/
theorem create_timestamp_timedelta_offset_eval :
    create_timestamp 1700000000 3600 (DtArg.datetime 1700000000) "R" = "<t:1700000000:R>" ∧
    create_timestamp 0 3600 (DtArg.timedelta 60) "t" = "<t:-3540:t>" ∧
    ("<t:-3540:t>" : String) ≠ "<t:60:t>" := by
  refine ⟨rfl, rfl, by decide⟩

end Wyvern


